import Mathlib

/-!
A shallow embedding of the python-gsl wrapper layer (errors.py, block.py,
vector.py, sf/) and proofs about it.  Machine doubles are modelled as
rationals (exact arithmetic); the native GSL entry points that the wrapper
calls are modelled explicitly, following the documented GSL contracts that
the spec records (non-zero status iff the call failed, `GSL_EBADLEN` = 19 on
length mismatch, null pointer on allocation failure).  Undefined behaviour of
a native out-of-bounds memory access is made observable as a distinguished
outcome `Res.ub`.
-/

namespace PyGSL

/-- The Python exception classes that the wrapper layer can produce
(`ctypes.ArgumentError` included, raised by the foreign-call layer on an
argument-type mismatch). -/
inductive ExceptionClass : Type where
  | ValueError
  | TypeError
  | IndexError
  | MemoryError
  | RuntimeError
  | ArithmeticError
  | ZeroDivisionError
  | OverflowError
  | OSError
  | NotImplementedError
  | EOFError
  | ArgumentError
  | Exception
deriving Repr, DecidableEq

/-- An exception instance: its class and its message text. -/
structure Exc where
  cls : ExceptionClass
  msg : String
deriving Repr, DecidableEq

/-- Outcome of running a piece of wrapper code: a normal return, a raised
Python exception, or an out-of-bounds native memory access (undefined
behaviour in the C library, `ub`). -/
inductive Res (α : Type) : Type where
  | ok (a : α)
  | exc (e : Exc)
  | ub
deriving Repr, DecidableEq

/-- Sequencing of wrapper code: exceptions and undefined behaviour
propagate. -/
def Res.bind {α β : Type} : Res α → (α → Res β) → Res β
  | .ok a, f => f a
  | .exc e, _ => .exc e
  | .ub, _ => .ub

@[simp] theorem Res.bind_ok {α β : Type} (a : α) (f : α → Res β) :
    Res.bind (.ok a) f = f a := rfl

@[simp] theorem Res.bind_exc {α β : Type} (e : Exc) (f : α → Res β) :
    Res.bind (.exc e) f = .exc e := rfl

@[simp] theorem Res.bind_ub {α β : Type} (f : α → Res β) :
    Res.bind Res.ub f = .ub := rfl

/-- Applying a pure function to the result of wrapper code. -/
def Res.map {α β : Type} (f : α → β) : Res α → Res β
  | .ok a => .ok (f a)
  | .exc e => .exc e
  | .ub => .ub

@[simp] theorem Res.map_ok {α β : Type} (f : α → β) (a : α) :
    Res.map f (.ok a) = .ok (f a) := rfl

@[simp] theorem Res.map_exc {α β : Type} (f : α → β) (e : Exc) :
    Res.map f (.exc e) = .exc e := rfl

@[simp] theorem Res.map_ub {α β : Type} (f : α → β) :
    Res.map f Res.ub = .ub := rfl

/-! ## errors.py -/

/-- The fixed code-to-exception table `error_codes` of `errors.py`, as an
association list from GSL error code to exception class. -/
def error_codes : List (Int × ExceptionClass) :=
  [(1, .ValueError),
   (2, .ValueError),
   (3, .ValueError),
   (4, .ValueError),
   (5, .RuntimeError),
   (6, .ArithmeticError),
   (7, .RuntimeError),
   (8, .MemoryError),
   (9, .RuntimeError),
   (10, .RuntimeError),
   (11, .RuntimeError),
   (12, .ZeroDivisionError),
   (13, .ValueError),
   (14, .RuntimeError),
   (15, .ArithmeticError),
   (16, .OverflowError),
   (17, .ArithmeticError),
   (18, .ArithmeticError),
   (19, .TypeError),
   (20, .TypeError),
   (21, .ArithmeticError),
   (22, .ArithmeticError),
   (23, .OSError),
   (24, .NotImplementedError),
   (25, .MemoryError),
   (26, .MemoryError),
   (27, .RuntimeError),
   (28, .RuntimeError),
   (29, .RuntimeError),
   (30, .RuntimeError),
   (31, .RuntimeError),
   (32, .EOFError)]

/-- `errors.exception_from_result`: build an exception instance for a GSL
error code, taking the class from the `error_codes` table (generic
`Exception` when the code is not a key) and the message from the native
message lookup `gsl_strerror`, which is passed in as a function. -/
def exception_from_result (strerror : Int → String) (error_code : Int) : Exc :=
  { cls := (error_codes.lookup error_code).getD .Exception
    msg := strerror error_code }

/-- Modelled from the spec: the native message-lookup call of the library
`gsl_strerror`, which returns a human-readable message for each error code.
Only the codes the wrapper itself raises are given their native texts. -/
def gsl_strerror (error_code : Int) : String :=
  if error_code = 8 then "malloc failed"
  else if error_code = 19 then "matrix, vector lengths are not conformant"
  else "unknown error code"

/-! ## sf/ (special functions) -/

/-- The native `gsl_sf_result` struct: computed value plus estimated
absolute error. -/
structure sf_result where
  val : ℚ
  err : ℚ
deriving Repr, DecidableEq

/-- `sf.sf_error_handler`, the ctypes errcheck hook shared by all `_e`
forms: a non-zero status code raises the exception derived from it, a zero
status unpacks the filled `gsl_sf_result` struct (the last argument of the
native call). -/
def sf_error_handler (result : Int) (resultArg : sf_result) : Res sf_result :=
  if result ≠ 0 then .exc (exception_from_result gsl_strerror result)
  else .ok resultArg

/-- Precision mode specifiers (`Mode` in the package root): default and
double are 0, single is 1, approx is 2. -/
def Mode.default : Nat := 0

/-- `Mode.double`, an alias of the default mode. -/
def Mode.double : Nat := 0

/-- `Mode.single`. -/
def Mode.single : Nat := 1

/-- `Mode.approx`. -/
def Mode.approx : Nat := 2

/-- `sf.bessel.J0_e`, parametrised by the native evaluator
`gsl_sf_bessel_J0_e` (input to status code and filled result struct). -/
def J0_e (native_J0_e : ℚ → Int × sf_result) (x : ℚ) : Res (ℚ × ℚ) :=
  let call := native_J0_e x
  Res.bind (sf_error_handler call.1 call.2) fun result =>
    .ok (result.val, result.err)

/-- `sf.bessel.J1_e`, parametrised by the native evaluator. -/
def J1_e (native_J1_e : ℚ → Int × sf_result) (x : ℚ) : Res (ℚ × ℚ) :=
  let call := native_J1_e x
  Res.bind (sf_error_handler call.1 call.2) fun result =>
    .ok (result.val, result.err)

/-- `sf.bessel.Jn_e`, parametrised by the native evaluator (order and
input to status code and filled result struct). -/
def Jn_e (native_Jn_e : Int → ℚ → Int × sf_result) (n : Int) (x : ℚ) :
    Res (ℚ × ℚ) :=
  let call := native_Jn_e n x
  Res.bind (sf_error_handler call.1 call.2) fun result =>
    .ok (result.val, result.err)

/-- `sf.airy.Ai_e`, parametrised by the two native evaluators (plain and
scaled); the `scaled` flag selects between them, `precision` is the mode. -/
def Ai_e (native_Ai_e native_Ai_scaled_e : ℚ → Nat → Int × sf_result)
    (x : ℚ) (precision : Nat) (scaled : Bool) : Res (ℚ × ℚ) :=
  let call := if scaled then native_Ai_scaled_e x precision
              else native_Ai_e x precision
  Res.bind (sf_error_handler call.1 call.2) fun result =>
    .ok (result.val, result.err)

/-- `sf.airy.Bi_e`, parametrised by the two native evaluators (plain and
scaled). -/
def Bi_e (native_Bi_e native_Bi_scaled_e : ℚ → Nat → Int × sf_result)
    (x : ℚ) (precision : Nat) (scaled : Bool) : Res (ℚ × ℚ) :=
  let call := if scaled then native_Bi_scaled_e x precision
              else native_Bi_e x precision
  Res.bind (sf_error_handler call.1 call.2) fun result =>
    .ok (result.val, result.err)

/-! ## block.py -/

/-- `block.alloc`: pick the allocator pair for the typecode (raising
`ValueError` on an unknown typecode), call the chosen native allocator
(plain or zero-initialising according to `init`), translate a null result
to the out-of-memory exception, and otherwise return the block pointer.
The native allocators are passed in as functions returning `none` for a
null pointer; pointers are modelled as naturals. -/
def block_alloc (d_fns C_fns : (Nat → Option Nat) × (Nat → Option Nat))
    (size : Nat) (typecode : String) (init : Bool) : Res Nat :=
  match (if typecode = "d" then some d_fns
         else if typecode = "C" then some C_fns else none) with
  | none => .exc ⟨.ValueError, "unknown type code " ++ typecode⟩
  | some alloc_fns =>
    match (if init then alloc_fns.2 else alloc_fns.1) size with
    | none => .exc (exception_from_result gsl_strerror 8)
    | some block_p => .ok block_p

/-! ## vector.py -/

/-- A Python numeric value handed to the vector layer: an instance of
`numbers.Real` (int/float), or a Python `complex`. -/
inductive PyVal : Type where
  | real (x : ℚ)
  | cplx (re im : ℚ)
deriving Repr, DecidableEq

/-- `isinstance(x, numbers.Real)`: true for floats/ints, false for
`complex` (even with zero imaginary part). -/
def PyVal.isReal : PyVal → Bool
  | .real _ => true
  | .cplx _ _ => false

/-- `gsl_complex.from_complex` composed with Python attribute access
`.real`/`.imag`: the (re, im) pair of a Python number. -/
def from_complex : PyVal → ℚ × ℚ
  | .real x => (x, 0)
  | .cplx re im => (re, im)

/-- The ctypes conversion of a Python number to a `c_double` argument:
real numbers convert to their value, a `complex` is rejected with
`ctypes.ArgumentError`. -/
def c_double_of : PyVal → Res ℚ
  | .real x => .ok x
  | .cplx _ _ => .exc ⟨.ArgumentError, "wrong type"⟩

/-- The ctypes conversion of a Python int to a `c_size_t` argument:
reduction modulo 2^64. -/
def c_size_t_of (i : Int) : Nat := (i % (2 ^ 64 : Int)).toNat

/-- Complex addition on (re, im) pairs, as performed element-wise by
`gsl_vector_complex_add`. -/
def cadd (a b : ℚ × ℚ) : ℚ × ℚ := (a.1 + b.1, a.2 + b.2)

/-- Complex multiplication on (re, im) pairs (no conjugation), as used by
`gsl_blas_zdotu`. -/
def cmul (a b : ℚ × ℚ) : ℚ × ℚ :=
  (a.1 * b.1 - a.2 * b.2, a.1 * b.2 + a.2 * b.1)

/-- Sum of a list of complex values. -/
def csum (l : List (ℚ × ℚ)) : ℚ × ℚ := l.foldr cadd (0, 0)

/-- The storage behind a vector: the real (`gsl_vector`) and complex
(`gsl_vector_complex`) native structs are distinct shapes, never
unioned. -/
inductive VecData : Type where
  | real (xs : List ℚ)
  | cplx (xs : List (ℚ × ℚ))
deriving Repr, DecidableEq

/-- A wrapper `Vector`: its native data (the typecode is determined by
which native struct shape it holds, mirroring `_typecode` together with
the per-typecode native function table chosen in `__init__`). -/
structure Vector : Type where
  data : VecData
deriving Repr, DecidableEq

/-- `Vector._typecode`. -/
def Vector.typecode (v : Vector) : String :=
  match v.data with
  | .real _ => "d"
  | .cplx _ => "C"

/-- `Vector.__len__`: the `size` field of the native struct. -/
def Vector.len (v : Vector) : Nat :=
  match v.data with
  | .real xs => xs.length
  | .cplx xs => xs.length

/-- Modelled from the spec: the native element read `gsl_vector_get`.  In
range it returns the stored element; out of range the native layer does not
reliably report an error, so the access is undefined behaviour. -/
def native_vector_get (xs : List ℚ) (i : Nat) : Res ℚ :=
  if h : i < xs.length then .ok (xs.get ⟨i, h⟩) else .ub

/-- Modelled from the spec: the native element read
`gsl_vector_complex_get`. -/
def native_vector_complex_get (xs : List (ℚ × ℚ)) (i : Nat) : Res (ℚ × ℚ) :=
  if h : i < xs.length then .ok (xs.get ⟨i, h⟩) else .ub

/-- Modelled from the spec: the native element write `gsl_vector_set`.  In
range it updates the stored element; out of range it is an unchecked
native memory write (undefined behaviour, never an error report). -/
def native_vector_set (xs : List ℚ) (i : Nat) (x : ℚ) : Res (List ℚ) :=
  if i < xs.length then .ok (xs.set i x) else .ub

/-- Modelled from the spec: the native element write
`gsl_vector_complex_set`. -/
def native_vector_complex_set (xs : List (ℚ × ℚ)) (i : Nat) (x : ℚ × ℚ) :
    Res (List (ℚ × ℚ)) :=
  if i < xs.length then .ok (xs.set i x) else .ub

/-- Modelled from the spec: `gsl_vector_memcpy` /
`gsl_vector_complex_memcpy` (dispatched by the struct shape the arguments
carry; a shape mismatch is rejected by ctypes before the call).  Equal
sizes copy the source into the destination and return status 0; unequal
sizes return `GSL_EBADLEN` (19) and leave the destination unchanged. -/
def native_vector_memcpy (dst src : VecData) : Res (Int × VecData) :=
  match dst, src with
  | .real d, .real s =>
    .ok (if d.length = s.length then (0, .real s) else (19, .real d))
  | .cplx d, .cplx s =>
    .ok (if d.length = s.length then (0, .cplx s) else (19, .cplx d))
  | _, _ => .exc ⟨.ArgumentError, "wrong type"⟩

/-- Modelled from the spec: `gsl_vector_add` / `gsl_vector_complex_add`
(dispatched by struct shape; a shape mismatch is rejected by ctypes with
`ArgumentError` before the call).  Equal sizes add element-wise into the
first argument and return status 0; unequal sizes return `GSL_EBADLEN`. -/
def native_vector_add (a b : VecData) : Res (Int × VecData) :=
  match a, b with
  | .real xs, .real ys =>
    .ok (if xs.length = ys.length
         then (0, .real (List.zipWith (fun x y => x + y) xs ys))
         else (19, .real xs))
  | .cplx xs, .cplx ys =>
    .ok (if xs.length = ys.length
         then (0, .cplx (List.zipWith cadd xs ys))
         else (19, .cplx xs))
  | _, _ => .exc ⟨.ArgumentError, "wrong type"⟩

/-- Modelled from the spec: `gsl_blas_ddot`, the real dot product.  Equal
lengths fill the result with the sum of element-wise products and return
status 0; unequal lengths return `GSL_EBADLEN` leaving the result slot at
its initial 0. -/
def native_blas_ddot (xs ys : List ℚ) : Int × ℚ :=
  if xs.length = ys.length
  then (0, (List.zipWith (fun x y => x * y) xs ys).sum)
  else (19, 0)

/-- Modelled from the spec: `gsl_blas_zdotu`, the complex dot product
without conjugation. -/
def native_blas_zdotu (xs ys : List (ℚ × ℚ)) : Int × (ℚ × ℚ) :=
  if xs.length = ys.length
  then (0, csum (List.zipWith cmul xs ys))
  else (19, (0, 0))

/-- `Vector.__getitem__`: explicit bounds check first (raising
`IndexError` without any native access when the index is out of range),
then the native getter, wrapping the value as a Python `complex` for
typecode C. -/
def Vector.getitem (v : Vector) (index : Int) : Res PyVal :=
  if 0 ≤ index ∧ index < (v.len : Int) then
    match v.data with
    | .real xs => Res.map PyVal.real (native_vector_get xs (c_size_t_of index))
    | .cplx xs =>
      Res.map (fun c => PyVal.cplx c.1 c.2)
        (native_vector_complex_get xs (c_size_t_of index))
  else .exc ⟨.IndexError, "index out of range"⟩

/-- `Vector.__setitem__`: convert the value (`gsl_complex.from_complex`
for typecode C, the ctypes `c_double` conversion for typecode d) and call
the native setter directly — the source performs no bounds check here. -/
def Vector.setitem (v : Vector) (index : Int) (val : PyVal) : Res Vector :=
  match v.data with
  | .real xs =>
    Res.bind (c_double_of val) fun x =>
      Res.map (fun ys => Vector.mk (.real ys))
        (native_vector_set xs (c_size_t_of index) x)
  | .cplx xs =>
    Res.map (fun ys => Vector.mk (.cplx ys))
      (native_vector_complex_set xs (c_size_t_of index) (from_complex val))

/-- The positional argument of `Vector.__init__`: a sized iterable of
values, or an element count. -/
inductive InitArg : Type where
  | ofSize (n : Nat)
  | ofSeq (xs : List PyVal)
deriving Repr, DecidableEq

/-- The `for i in range(size): self[i] = init_vals[i]` loop of
`Vector.__init__` (also reused by `_as_typecode`), writing the values into
the freshly allocated vector through `__setitem__` at consecutive
indices starting from `i`. -/
def Vector.initLoop (v : Vector) (vals : List PyVal) (i : Nat) : Res Vector :=
  match vals with
  | [] => .ok v
  | x :: rest =>
    Res.bind (v.setitem (i : Int) x) fun w => Vector.initLoop w rest (i + 1)

/-- `Vector.__init__`.  The positional argument is either a sized iterable
(initial values) or an element count; the typecode defaults to d for a
count and is inferred from the values otherwise (d iff all are real); an
unknown typecode raises `ValueError`; allocation failure (modelled by the
`allocOk` flag standing for the result of the native allocator) raises the
out-of-memory exception; a count is zero-initialised via calloc, while
initial values are written over an uninitialised allocation (modelled as
zeros, every element being overwritten by the loop). -/
def Vector.init (allocOk : Bool) (arg : InitArg) (typecode : Option String) :
    Res Vector :=
  let init_vals : Option (List PyVal) :=
    match arg with
    | .ofSeq xs => some xs
    | .ofSize _ => none
  let size : Nat :=
    match arg with
    | .ofSeq xs => xs.length
    | .ofSize n => n
  let tc : String :=
    match typecode with
    | some t => t
    | none =>
      match init_vals with
      | none => "d"
      | some xs => if xs.all PyVal.isReal then "d" else "C"
  if tc = "d" ∨ tc = "C" then
    if allocOk then
      let fresh : Vector :=
        ⟨if tc = "d" then .real (List.replicate size 0)
         else .cplx (List.replicate size (0, 0))⟩
      match init_vals with
      | some xs => Vector.initLoop fresh xs 0
      | none => .ok fresh
    else .exc (exception_from_result gsl_strerror 8)
  else .exc ⟨.ValueError, "unknown type code " ++ tc⟩

/-- `Vector._as_typecode`: a real vector asked for typecode C is copied
into a freshly constructed complex vector element by element; in every
other case the vector itself is returned. -/
def Vector.as_typecode (allocOk : Bool) (v : Vector) (tc : String) :
    Res Vector :=
  match v.data with
  | .real xs =>
    if tc = "C" then
      Res.bind (Vector.init allocOk (.ofSize xs.length) (some "C"))
        fun coerced => Vector.initLoop coerced (xs.map PyVal.real) 0
    else .ok v
  | .cplx _ => .ok v

/-- `Vector.__copy__`: construct a new vector of the same size and
typecode, then `memcpy` the contents across, raising on a non-zero status
code. -/
def Vector.copy (allocOk : Bool) (v : Vector) : Res Vector :=
  Res.bind (Vector.init allocOk (.ofSize v.len) (some v.typecode))
    fun other =>
      Res.bind (native_vector_memcpy other.data v.data) fun call =>
        if call.1 ≠ 0 then .exc (exception_from_result gsl_strerror call.1)
        else .ok ⟨call.2⟩

/-- `Vector.__add__`: copy the left operand, try the native add (ctypes
raises `ArgumentError` when the operand typecodes differ, which is caught
and answered by coercing both operands to the more general typecode and
retrying), then raise on a non-zero status code. -/
def Vector.add (allocOk : Bool) (self other : Vector) : Res Vector :=
  Res.bind (Vector.copy allocOk self) fun result =>
    Res.bind
      (match native_vector_add result.data other.data with
       | .exc _ =>
         Res.bind (Vector.as_typecode allocOk result other.typecode)
           fun result2 =>
             Res.bind (Vector.as_typecode allocOk other result.typecode)
               fun other2 => native_vector_add result2.data other2.data
       | r => r)
      fun call =>
        if call.1 ≠ 0 then .exc (exception_from_result gsl_strerror call.1)
        else .ok ⟨call.2⟩

/-- `Vector.dot`: operands of different typecodes are first both coerced
to the more general typecode; the native BLAS dot routine of the
(possibly coerced) typecode fills the result slot; a non-zero status code
raises, and otherwise the result is returned (as a Python complex for
typecode C). -/
def Vector.dot (allocOk : Bool) (self other : Vector) : Res PyVal :=
  Res.bind
    (if self.typecode ≠ other.typecode then
      Res.bind (Vector.as_typecode allocOk self other.typecode) fun s =>
        Res.bind (Vector.as_typecode allocOk other self.typecode) fun o =>
          .ok (s, o)
    else .ok (self, other))
    fun so =>
      match so.1.data, so.2.data with
      | .real xs, .real ys =>
        let call := native_blas_ddot xs ys
        if call.1 ≠ 0 then .exc (exception_from_result gsl_strerror call.1)
        else .ok (.real call.2)
      | .cplx xs, .cplx ys =>
        let call := native_blas_zdotu xs ys
        if call.1 ≠ 0 then .exc (exception_from_result gsl_strerror call.1)
        else .ok (.cplx call.2.1 call.2.2)
      | _, _ => .exc ⟨.ArgumentError, "wrong type"⟩

/-! ## Helper lemmas -/

theorem c_size_t_of_natCast (i : Nat) (h : i < 2 ^ 64) :
    c_size_t_of (i : Int) = i := by
  unfold c_size_t_of
  omega

theorem set_append_cons {α : Type} (pre : List α) (s : α) (suf : List α)
    (x : α) : (pre ++ s :: suf).set pre.length x = pre ++ x :: suf := by
  induction pre with
  | nil => rfl
  | cons p pre ih => simp [List.set, ih]

theorem initLoop_real (vals : List PyVal) (pre suf : List ℚ)
    (hall : vals.all PyVal.isReal = true) (hlen : vals.length = suf.length)
    (hfit : pre.length + vals.length < 2 ^ 64) :
    Vector.initLoop ⟨.real (pre ++ suf)⟩ vals pre.length =
      .ok ⟨.real (pre ++ vals.map (fun p => (from_complex p).1))⟩ := by
  induction vals generalizing pre suf with
  | nil =>
    have : suf = [] := by
      cases suf with
      | nil => rfl
      | cons s suf => simp at hlen
    subst this
    simp [Vector.initLoop]
  | cons x rest ih =>
    cases suf with
    | nil => simp at hlen
    | cons s suf =>
      simp only [List.all_cons, Bool.and_eq_true] at hall
      obtain ⟨hx, hrest⟩ := hall
      cases x with
      | cplx a b => simp [PyVal.isReal] at hx
      | real q =>
        have hlen2 : rest.length = suf.length := by
          simpa using hlen
        have hfit2 : pre.length + rest.length + 1 < 2 ^ 64 := by
          simp only [List.length_cons] at hfit
          omega
        have hidx : c_size_t_of (pre.length : Int) = pre.length :=
          c_size_t_of_natCast _ (by omega)
        have hlt : pre.length < (pre ++ s :: suf).length := by
          simp
        have hset : native_vector_set (pre ++ s :: suf)
            (c_size_t_of (pre.length : Int)) q = .ok (pre ++ q :: suf) := by
          rw [hidx]
          unfold native_vector_set
          rw [if_pos hlt, set_append_cons]
        have hstep := ih (pre ++ [q]) suf hrest (by simpa using hlen2)
          (by simp only [List.length_append, List.length_singleton]; omega)
        rw [List.append_assoc, List.singleton_append] at hstep
        simp only [List.length_append, List.length_singleton] at hstep
        simp only [Vector.initLoop, Vector.setitem, c_double_of, Res.bind_ok,
          hset, Res.map_ok]
        rw [hstep, List.append_assoc, List.singleton_append]
        simp [from_complex]

theorem initLoop_cplx (vals : List PyVal) (pre suf : List (ℚ × ℚ))
    (hlen : vals.length = suf.length)
    (hfit : pre.length + vals.length < 2 ^ 64) :
    Vector.initLoop ⟨.cplx (pre ++ suf)⟩ vals pre.length =
      .ok ⟨.cplx (pre ++ vals.map from_complex)⟩ := by
  induction vals generalizing pre suf with
  | nil =>
    have : suf = [] := by
      cases suf with
      | nil => rfl
      | cons s suf => simp at hlen
    subst this
    simp [Vector.initLoop]
  | cons x rest ih =>
    cases suf with
    | nil => simp at hlen
    | cons s suf =>
      have hlen2 : rest.length = suf.length := by
        simpa using hlen
      have hfit2 : pre.length + rest.length + 1 < 2 ^ 64 := by
        simp only [List.length_cons] at hfit
        omega
      have hidx : c_size_t_of (pre.length : Int) = pre.length :=
        c_size_t_of_natCast _ (by omega)
      have hlt : pre.length < (pre ++ s :: suf).length := by
        simp
      have hset : native_vector_complex_set (pre ++ s :: suf)
          (c_size_t_of (pre.length : Int)) (from_complex x) =
          .ok (pre ++ from_complex x :: suf) := by
        rw [hidx]
        unfold native_vector_complex_set
        rw [if_pos hlt, set_append_cons]
      have hstep := ih (pre ++ [from_complex x]) suf (by simpa using hlen2)
        (by simp only [List.length_append, List.length_singleton]; omega)
      rw [List.append_assoc, List.singleton_append] at hstep
      simp only [List.length_append, List.length_singleton] at hstep
      simp only [Vector.initLoop, Vector.setitem, Res.bind_ok, hset,
        Res.map_ok]
      rw [hstep, List.append_assoc, List.singleton_append]
      simp

theorem init_ofSize_d (n : Nat) :
    Vector.init true (.ofSize n) none = .ok ⟨.real (List.replicate n 0)⟩ := by
  simp [Vector.init]

theorem init_ofSize_some (n : Nat) (tc : String) (h : tc = "d" ∨ tc = "C") :
    Vector.init true (.ofSize n) (some tc) =
      .ok ⟨if tc = "d" then .real (List.replicate n 0)
           else .cplx (List.replicate n (0, 0))⟩ := by
  simp [Vector.init, h]

theorem init_ofSeq_d (s : List PyVal) (hall : s.all PyVal.isReal = true)
    (hfit : s.length < 2 ^ 64) :
    Vector.init true (.ofSeq s) none =
      .ok ⟨.real (s.map (fun p => (from_complex p).1))⟩ := by
  have h := initLoop_real s [] (List.replicate s.length 0) hall
    (by simp) (by simpa)
  simp only [List.nil_append, List.length_nil] at h
  simpa [Vector.init, hall] using h

theorem init_ofSeq_C (s : List PyVal) (hall : s.all PyVal.isReal = false)
    (hfit : s.length < 2 ^ 64) :
    Vector.init true (.ofSeq s) none = .ok ⟨.cplx (s.map from_complex)⟩ := by
  have h := initLoop_cplx s [] (List.replicate s.length (0, 0))
    (by simp) (by simpa)
  simp only [List.nil_append, List.length_nil] at h
  simpa [Vector.init, hall] using h

theorem as_typecode_dC (xs : List ℚ) (hfit : xs.length < 2 ^ 64) :
    Vector.as_typecode true ⟨.real xs⟩ "C" =
      .ok ⟨.cplx (xs.map (fun q => (q, 0)))⟩ := by
  have h := initLoop_cplx (xs.map PyVal.real) []
    (List.replicate xs.length (0, 0)) (by simp) (by simpa)
  simp only [List.nil_append, List.length_nil] at h
  have hmap : (xs.map PyVal.real).map from_complex =
      xs.map (fun q => (q, 0)) := by
    rw [List.map_map]
    rfl
  rw [hmap] at h
  simpa [Vector.as_typecode, Vector.init] using h

theorem as_typecode_keep (v : Vector) (tc : String)
    (h : v.typecode = "C" ∨ tc ≠ "C") :
    Vector.as_typecode true v tc = .ok v := by
  cases hv : v.data with
  | real xs =>
    have htc : tc ≠ "C" := by
      rcases h with h | h
      · simp [Vector.typecode, hv] at h
      · exact h
    cases v
    simp only at hv
    subst hv
    simp [Vector.as_typecode, htc]
  | cplx xs =>
    cases v
    simp only at hv
    subst hv
    simp [Vector.as_typecode]

theorem copy_id (v : Vector) : Vector.copy true v = .ok v := by
  cases hv : v.data with
  | real xs =>
    cases v
    simp only at hv
    subst hv
    simp [Vector.copy, Vector.len, Vector.typecode,
      init_ofSize_some _ "d" (Or.inl rfl), native_vector_memcpy]
  | cplx xs =>
    cases v
    simp only at hv
    subst hv
    simp [Vector.copy, Vector.len, Vector.typecode,
      init_ofSize_some _ "C" (Or.inr rfl), native_vector_memcpy]

theorem getitem_real (xs : List ℚ) (i : Nat) (h : i < xs.length)
    (hfit : xs.length < 2 ^ 64) :
    (Vector.mk (.real xs)).getitem (i : Int) = .ok (.real (xs.getD i 0)) := by
  have hidx : c_size_t_of (i : Int) = i := c_size_t_of_natCast _ (by omega)
  have hguard : 0 ≤ (i : Int) ∧
      (i : Int) < (((Vector.mk (.real xs)).len : Nat) : Int) := by
    refine ⟨Int.natCast_nonneg i, ?_⟩
    show (i : Int) < (xs.length : Int)
    exact_mod_cast h
  rw [Vector.getitem, if_pos hguard]
  simp only [hidx]
  rw [native_vector_get, dif_pos h, Res.map_ok, List.getD_eq_getElem _ _ h]
  rfl

theorem getitem_cplx (xs : List (ℚ × ℚ)) (i : Nat) (h : i < xs.length)
    (hfit : xs.length < 2 ^ 64) :
    (Vector.mk (.cplx xs)).getitem (i : Int) =
      .ok (.cplx (xs.getD i (0, 0)).1 (xs.getD i (0, 0)).2) := by
  have hidx : c_size_t_of (i : Int) = i := c_size_t_of_natCast _ (by omega)
  have hguard : 0 ≤ (i : Int) ∧
      (i : Int) < (((Vector.mk (.cplx xs)).len : Nat) : Int) := by
    refine ⟨Int.natCast_nonneg i, ?_⟩
    show (i : Int) < (xs.length : Int)
    exact_mod_cast h
  rw [Vector.getitem, if_pos hguard]
  simp only [hidx]
  rw [native_vector_complex_get, dif_pos h, Res.map_ok,
    List.getD_eq_getElem _ _ h]
  rfl

/-! ## Claim theorems -/

/-- C1 (code_bug evaluation): on a Vector of length 3, the out-of-range
indexed get `v[3]` raises `IndexError`, but the out-of-range indexed set
`v[3] = 1.0` performs the unchecked native element write (undefined
behaviour) and raises no exception at all — `__setitem__` has no bounds
check, contradicting the spec sentence "indexed get/set: bounds-checked". -/
theorem C1_setitem_bounds_bug :
    (Vector.mk (.real [0, 0, 0])).getitem 3 =
        .exc ⟨.IndexError, "index out of range"⟩ ∧
      (Vector.mk (.real [0, 0, 0])).setitem 3 (.real 1) = .ub ∧
      ∀ e : Exc, (Vector.mk (.real [0, 0, 0])).setitem 3 (.real 1) ≠
        .exc e := by
  refine ⟨by decide, by decide, fun e hc => ?_⟩
  rw [show (Vector.mk (.real [0, 0, 0])).setitem 3 (.real 1) = Res.ub from
    by decide] at hc
  exact Res.noConfusion hc

/-- C2: a Vector constructed from a valid size n has length n and all
elements read back zero (for every admissible typecode argument); a Vector
constructed from a finite sequence has the length of the sequence, each element
reads back numerically equal to the corresponding sequence element, and
with no typecode given the element type is d when every element is real
and C otherwise. -/
theorem C2_construction :
    (∀ (n : Nat) (tc : Option String), n < 2 ^ 64 →
        tc = none ∨ tc = some "d" ∨ tc = some "C" →
        ∃ v : Vector, Vector.init true (.ofSize n) tc = .ok v ∧
          v.len = n ∧
          ∀ i : Nat, i < n → ∃ p : PyVal,
            v.getitem (i : Int) = .ok p ∧ from_complex p = (0, 0)) ∧
      (∀ s : List PyVal, s.length < 2 ^ 64 →
        ∃ v : Vector, Vector.init true (.ofSeq s) none = .ok v ∧
          v.len = s.length ∧
          v.typecode = (if s.all PyVal.isReal then "d" else "C") ∧
          ∀ i : Nat, i < s.length → ∃ p : PyVal,
            v.getitem (i : Int) = .ok p ∧
              from_complex p = from_complex (s.getD i (.real 0))) := by
  constructor
  · rintro n tc hn (rfl | rfl | rfl)
    · refine ⟨⟨.real (List.replicate n 0)⟩, init_ofSize_d n,
        by simp [Vector.len], ?_⟩
      intro i hi
      have h := getitem_real (List.replicate n 0) i (by simpa using hi)
        (by simpa using hn)
      refine ⟨_, h, ?_⟩
      rw [List.getD_eq_getElem _ _ (by simpa using hi),
        List.getElem_replicate]
      rfl
    · refine ⟨⟨.real (List.replicate n 0)⟩, ?_, by simp [Vector.len], ?_⟩
      · simpa using init_ofSize_some n "d" (Or.inl rfl)
      · intro i hi
        have h := getitem_real (List.replicate n 0) i (by simpa using hi)
          (by simpa using hn)
        refine ⟨_, h, ?_⟩
        rw [List.getD_eq_getElem _ _ (by simpa using hi),
          List.getElem_replicate]
        rfl
    · refine ⟨⟨.cplx (List.replicate n (0, 0))⟩, ?_,
        by simp [Vector.len], ?_⟩
      · simpa using init_ofSize_some n "C" (Or.inr rfl)
      · intro i hi
        have h := getitem_cplx (List.replicate n (0, 0)) i (by simpa using hi)
          (by simpa using hn)
        refine ⟨_, h, ?_⟩
        rw [List.getD_eq_getElem _ _ (by simpa using hi),
          List.getElem_replicate]
        rfl
  · intro s hs
    by_cases hall : s.all PyVal.isReal = true
    · refine ⟨⟨.real (s.map (fun p => (from_complex p).1))⟩,
        init_ofSeq_d s hall hs, by simp [Vector.len],
        by simp [Vector.typecode, hall], ?_⟩
      intro i hi
      have hmlen : i < (s.map (fun p => (from_complex p).1)).length := by
        simpa using hi
      have h := getitem_real _ i hmlen (by simpa using hs)
      refine ⟨_, h, ?_⟩
      have hg : (s.map (fun p => (from_complex p).1)).getD i 0 =
          (from_complex (s.getD i (.real 0))).1 := by
        rw [List.getD_eq_getElem _ _ hmlen, List.getD_eq_getElem _ _ hi]
        exact List.getElem_map _
      rw [hg]
      have hr : (s.getD i (.real 0)).isReal = true := by
        rw [List.all_eq_true] at hall
        refine hall _ ?_
        rw [List.getD_eq_getElem _ _ hi]
        exact List.getElem_mem hi
      cases hq : s.getD i (.real 0) with
      | real q => simp [from_complex]
      | cplx a b =>
        rw [hq] at hr
        simp [PyVal.isReal] at hr
    · refine ⟨⟨.cplx (s.map from_complex)⟩,
        init_ofSeq_C s (by simpa using hall) hs, by simp [Vector.len],
        by simp [Vector.typecode, hall], ?_⟩
      intro i hi
      have hmlen : i < (s.map from_complex).length := by simpa using hi
      have h := getitem_cplx _ i hmlen (by simpa using hs)
      refine ⟨_, h, ?_⟩
      have hg : (s.map from_complex).getD i (0, 0) =
          from_complex (s.getD i (.real 0)) := by
        rw [List.getD_eq_getElem _ _ hmlen, List.getD_eq_getElem _ _ hi]
        exact List.getElem_map _
      rw [hg]
      simp [from_complex]

/-- C2 witness: a zero-initialised vector of size 2, and a vector built
from the mixed sequence (3, 1+2j), with its inferred complex typecode. -/
theorem C2_construction_witness :
    (∃ v : Vector, Vector.init true (.ofSize 2) none = .ok v ∧
        v.len = 2 ∧
        ∀ i : Nat, i < 2 → ∃ p : PyVal,
          v.getitem (i : Int) = .ok p ∧ from_complex p = (0, 0)) ∧
      (∃ v : Vector,
        Vector.init true (.ofSeq [.real 3, .cplx 1 2]) none = .ok v ∧
        v.len = [PyVal.real 3, PyVal.cplx 1 2].length ∧
        v.typecode =
          (if [PyVal.real 3, PyVal.cplx 1 2].all PyVal.isReal
           then "d" else "C") ∧
        ∀ i : Nat, i < [PyVal.real 3, PyVal.cplx 1 2].length →
          ∃ p : PyVal, v.getitem (i : Int) = .ok p ∧
            from_complex p =
              from_complex ([PyVal.real 3, PyVal.cplx 1 2].getD i
                (.real 0))) :=
  ⟨C2_construction.1 2 none (by norm_num) (Or.inl rfl),
    C2_construction.2 [.real 3, .cplx 1 2] (by norm_num)⟩

/-- C3: adding or dotting a real vector u with an equal-length complex
vector w coerces u to a complex vector with zero imaginary parts, returns
a complex result equal to the same operation on the coerced operands, and
leaves the element types of the operands what they were. -/
theorem C3_mixed_coercion (xs : List ℚ) (ws : List (ℚ × ℚ))
    (hlen : xs.length = ws.length) (hfit : xs.length < 2 ^ 64) :
    Vector.as_typecode true ⟨.real xs⟩ "C" =
        .ok ⟨.cplx (xs.map (fun q => (q, 0)))⟩ ∧
      (Vector.mk (.real xs)).typecode = "d" ∧
      (Vector.mk (.cplx ws)).typecode = "C" ∧
      Vector.add true ⟨.real xs⟩ ⟨.cplx ws⟩ =
        .ok ⟨.cplx (List.zipWith cadd (xs.map (fun q => (q, 0))) ws)⟩ ∧
      Vector.add true ⟨.real xs⟩ ⟨.cplx ws⟩ =
        Vector.add true ⟨.cplx (xs.map (fun q => (q, 0)))⟩ ⟨.cplx ws⟩ ∧
      Vector.dot true ⟨.real xs⟩ ⟨.cplx ws⟩ =
        .ok (.cplx (csum (List.zipWith cmul (xs.map (fun q => (q, 0))) ws)).1
          (csum (List.zipWith cmul (xs.map (fun q => (q, 0))) ws)).2) ∧
      Vector.dot true ⟨.real xs⟩ ⟨.cplx ws⟩ =
        Vector.dot true ⟨.cplx (xs.map (fun q => (q, 0)))⟩ ⟨.cplx ws⟩ := by
  have hco := as_typecode_dC xs hfit
  have hkeep : Vector.as_typecode true ⟨.cplx ws⟩ "d" = .ok ⟨.cplx ws⟩ :=
    as_typecode_keep _ _ (Or.inl rfl)
  have hmlen : (xs.map (fun q => (q, (0 : ℚ)))).length = ws.length := by
    simpa using hlen
  have haddc : Vector.add true ⟨.cplx (xs.map (fun q => (q, 0)))⟩
      ⟨.cplx ws⟩ =
      .ok ⟨.cplx (List.zipWith cadd (xs.map (fun q => (q, 0))) ws)⟩ := by
    simp only [Vector.add, copy_id, Res.bind_ok]
    simp [native_vector_add, hmlen]
  have hadd : Vector.add true ⟨.real xs⟩ ⟨.cplx ws⟩ =
      .ok ⟨.cplx (List.zipWith cadd (xs.map (fun q => (q, 0))) ws)⟩ := by
    simp only [Vector.add, copy_id, Res.bind_ok]
    simp [native_vector_add, Vector.typecode, hco, hkeep, hmlen]
  have hdotc : Vector.dot true ⟨.cplx (xs.map (fun q => (q, 0)))⟩
      ⟨.cplx ws⟩ =
      .ok (.cplx (csum (List.zipWith cmul (xs.map (fun q => (q, 0))) ws)).1
        (csum (List.zipWith cmul (xs.map (fun q => (q, 0))) ws)).2) := by
    simp only [Vector.dot]
    simp [Vector.typecode, native_blas_zdotu, hmlen]
  have hdot : Vector.dot true ⟨.real xs⟩ ⟨.cplx ws⟩ =
      .ok (.cplx (csum (List.zipWith cmul (xs.map (fun q => (q, 0))) ws)).1
        (csum (List.zipWith cmul (xs.map (fun q => (q, 0))) ws)).2) := by
    simp only [Vector.dot]
    simp [Vector.typecode, hco, hkeep, native_blas_zdotu, hmlen]
  exact ⟨hco, rfl, rfl, hadd, hadd.trans haddc.symm, hdot,
    hdot.trans hdotc.symm⟩

/-- C3 witness: u = (3, 0, -1) real and w = (2+1j, -2+1j, 1-2j) complex:
u + w is the complex vector (5+1j, -2+1j, 0-2j) and u.dot(w) is the
complex number 5+5j, both equal to the operation on the coerced u. -/
theorem C3_mixed_coercion_witness :
    Vector.add true ⟨.real [3, 0, -1]⟩
        ⟨.cplx [(2, 1), (-2, 1), (1, -2)]⟩ =
        .ok ⟨.cplx [(5, 1), (-2, 1), (0, -2)]⟩ ∧
      Vector.dot true ⟨.real [3, 0, -1]⟩
        ⟨.cplx [(2, 1), (-2, 1), (1, -2)]⟩ = .ok (.cplx 5 5) := by
  have h := C3_mixed_coercion [3, 0, -1] [(2, 1), (-2, 1), (1, -2)]
    (by norm_num) (by norm_num)
  refine ⟨h.2.2.2.1.trans ?_, h.2.2.2.2.2.1.trans ?_⟩
  · simp [cadd]
    norm_num
  · simp [csum, cmul, cadd]
    norm_num

/-- C4: dotting or adding two vectors of unequal lengths raises the
type/size error derived from GSL code 19 (class TypeError) and never
returns a truncated result. -/
theorem C4_length_mismatch (u v : Vector) (hne : u.len ≠ v.len)
    (hu : u.len < 2 ^ 64) (hv : v.len < 2 ^ 64) :
    Vector.dot true u v = .exc (exception_from_result gsl_strerror 19) ∧
      Vector.add true u v = .exc (exception_from_result gsl_strerror 19) ∧
      (exception_from_result gsl_strerror 19).cls = .TypeError := by
  obtain ⟨du⟩ := u
  obtain ⟨dv⟩ := v
  refine ⟨?_, ?_, rfl⟩ <;>
    cases du with
    | real xs =>
      cases dv with
      | real ys =>
        simp only [Vector.len] at hne
        simp only [Vector.dot, Vector.add, copy_id, Res.bind_ok,
          Vector.typecode]
        simp [native_blas_ddot, native_vector_add, hne]
      | cplx ws =>
        simp only [Vector.len] at hne hu
        have hmne : (xs.map (fun q => (q, (0 : ℚ)))).length ≠ ws.length := by
          simpa using hne
        simp only [Vector.dot, Vector.add, copy_id, Res.bind_ok,
          Vector.typecode]
        simp [native_blas_zdotu, native_vector_add, as_typecode_dC xs hu,
          as_typecode_keep ⟨VecData.cplx ws⟩ "d" (Or.inl rfl),
          Vector.typecode, hmne, hne]
    | cplx xs =>
      cases dv with
      | real ys =>
        simp only [Vector.len] at hne hv
        have hmne : xs.length ≠ (ys.map (fun q => (q, (0 : ℚ)))).length := by
          simpa using hne
        simp only [Vector.dot, Vector.add, copy_id, Res.bind_ok,
          Vector.typecode]
        simp [native_blas_zdotu, native_vector_add, as_typecode_dC ys hv,
          as_typecode_keep ⟨VecData.cplx xs⟩ "d" (Or.inl rfl),
          Vector.typecode, hmne, hne]
      | cplx ws =>
        simp only [Vector.len] at hne
        simp only [Vector.dot, Vector.add, copy_id, Res.bind_ok,
          Vector.typecode]
        simp [native_blas_zdotu, native_vector_add, hne]

/-- C4 witness: dot and add on a length-3 and a length-2 vector both raise
the TypeError derived from GSL code 19. -/
theorem C4_length_mismatch_witness :
    Vector.dot true ⟨.real [3, 0, -1]⟩ ⟨.cplx [(0, -1), (-1, 0)]⟩ =
        .exc (exception_from_result gsl_strerror 19) ∧
      Vector.add true ⟨.real [3, 0, -1]⟩ ⟨.cplx [(0, -1), (-1, 0)]⟩ =
        .exc (exception_from_result gsl_strerror 19) ∧
      (exception_from_result gsl_strerror 19).cls = .TypeError :=
  C4_length_mismatch ⟨.real [3, 0, -1]⟩ ⟨.cplx [(0, -1), (-1, 0)]⟩
    (by decide) (by norm_num [Vector.len]) (by norm_num [Vector.len])

/-- C5: `exception_from_result` returns an exception whose class is the
`error_codes` table entry when the code is a key (MemoryError for code 8,
ValueError for codes 1 to 4) and the generic `Exception` class otherwise,
with the message text of the native library itself for the code. -/
theorem C5_exception_mapping (strerror : Int → String) (c : Int)
    (cls : ExceptionClass) :
    ((error_codes.lookup c = some cls →
        exception_from_result strerror c = ⟨cls, strerror c⟩) ∧
      (error_codes.lookup c = none →
        exception_from_result strerror c = ⟨.Exception, strerror c⟩)) ∧
      (exception_from_result strerror 8).cls = .MemoryError ∧
      (exception_from_result strerror 1).cls = .ValueError ∧
      (exception_from_result strerror 2).cls = .ValueError ∧
      (exception_from_result strerror 3).cls = .ValueError ∧
      (exception_from_result strerror 4).cls = .ValueError := by
  refine ⟨⟨fun h => ?_, fun h => ?_⟩, rfl, rfl, rfl, rfl, rfl⟩
  · simp [exception_from_result, h]
  · simp [exception_from_result, h]

/-- C5 witness: the mapping evaluated at code 8 (a table key, mapped to
MemoryError) and at code 99 (not a key, mapped to generic Exception). -/
theorem C5_exception_mapping_witness :
    exception_from_result (fun _ => "malloc failed") 8 =
        ⟨.MemoryError, "malloc failed"⟩ ∧
      exception_from_result (fun _ => "no such code") 99 =
        ⟨.Exception, "no such code"⟩ :=
  ⟨(C5_exception_mapping (fun _ => "malloc failed") 8 .MemoryError).1.1
      (by decide),
    (C5_exception_mapping (fun _ => "no such code") 99 .MemoryError).1.2
      (by decide)⟩

/-- C6: when the native allocator returns a null pointer, `block.alloc`
and Vector construction raise the out-of-memory exception (GSL code 8,
class MemoryError) and never hand a null pointer back; when the allocator
returns a non-null pointer, that pointer (or the vector built on it) is
returned. -/
theorem C6_alloc_null (d_fns C_fns : (Nat → Option Nat) × (Nat → Option Nat))
    (size n : Nat) (init : Bool) (p : Nat) :
    ((if init then d_fns.2 else d_fns.1) size = none →
        block_alloc d_fns C_fns size "d" init =
          .exc (exception_from_result gsl_strerror 8)) ∧
      ((if init then d_fns.2 else d_fns.1) size = some p →
        block_alloc d_fns C_fns size "d" init = .ok p) ∧
      ((if init then C_fns.2 else C_fns.1) size = none →
        block_alloc d_fns C_fns size "C" init =
          .exc (exception_from_result gsl_strerror 8)) ∧
      ((if init then C_fns.2 else C_fns.1) size = some p →
        block_alloc d_fns C_fns size "C" init = .ok p) ∧
      exception_from_result gsl_strerror 8 =
        ⟨.MemoryError, "malloc failed"⟩ ∧
      Vector.init false (.ofSize n) none =
        .exc (exception_from_result gsl_strerror 8) ∧
      (∃ v : Vector, Vector.init true (.ofSize n) none = .ok v ∧
        v.len = n) := by
  refine ⟨fun h => ?_, fun h => ?_, fun h => ?_, fun h => ?_, by decide,
    by simp [Vector.init], ⟨⟨.real (List.replicate n 0)⟩, init_ofSize_d n,
      by simp [Vector.len]⟩⟩
  · simp [block_alloc, h]
  · simp [block_alloc, h]
  · simp [block_alloc, h]
  · simp [block_alloc, h]

/-- C6 witness: a null-returning allocator makes `block.alloc` raise the
out-of-memory exception, a non-null-returning one hands the pointer back,
and Vector construction of size 2 with a failed/successful allocation
raises/succeeds accordingly. -/
theorem C6_alloc_null_witness :
    block_alloc (fun _ => none, fun _ => none)
        (fun _ => some 7, fun _ => some 7) 4 "d" false =
        .exc (exception_from_result gsl_strerror 8) ∧
      block_alloc (fun _ => some 5, fun _ => none)
        (fun _ => some 7, fun _ => some 7) 4 "d" false = .ok 5 ∧
      Vector.init false (.ofSize 2) none =
        .exc (exception_from_result gsl_strerror 8) ∧
      (∃ v : Vector, Vector.init true (.ofSize 2) none = .ok v ∧
        v.len = 2) := by
  have h := C6_alloc_null (fun _ => none, fun _ => none)
    (fun _ => some 7, fun _ => some 7) 4 2 false 5
  have h2 := C6_alloc_null (fun _ => some 5, fun _ => none)
    (fun _ => some 7, fun _ => some 7) 4 2 false 5
  exact ⟨h.1 rfl, h2.2.1 rfl, h2.2.2.2.2.2.1, h2.2.2.2.2.2.2⟩

/-- C7: every `_e` special-function form (Airy Ai_e/Bi_e, Bessel
J0_e/J1_e/Jn_e) returns the (value, estimated error) pair unpacked from
the native result struct when the native status code is zero, and raises
the exception derived from the status code when it is non-zero. -/
theorem C7_sf_e_forms (fJ0 fJ1 : ℚ → Int × sf_result)
    (fJn : Int → ℚ → Int × sf_result)
    (fAi fAis fBi fBis : ℚ → Nat → Int × sf_result)
    (x : ℚ) (n : Int) (precision : Nat) (scaled : Bool) :
    (((fJ0 x).1 = 0 → J0_e fJ0 x = .ok ((fJ0 x).2.val, (fJ0 x).2.err)) ∧
      ((fJ0 x).1 ≠ 0 →
        J0_e fJ0 x = .exc (exception_from_result gsl_strerror (fJ0 x).1))) ∧
    (((fJ1 x).1 = 0 → J1_e fJ1 x = .ok ((fJ1 x).2.val, (fJ1 x).2.err)) ∧
      ((fJ1 x).1 ≠ 0 →
        J1_e fJ1 x = .exc (exception_from_result gsl_strerror (fJ1 x).1))) ∧
    (((fJn n x).1 = 0 →
        Jn_e fJn n x = .ok ((fJn n x).2.val, (fJn n x).2.err)) ∧
      ((fJn n x).1 ≠ 0 →
        Jn_e fJn n x =
          .exc (exception_from_result gsl_strerror (fJn n x).1))) ∧
    (((if scaled then fAis x precision else fAi x precision).1 = 0 →
        Ai_e fAi fAis x precision scaled =
          .ok ((if scaled then fAis x precision else fAi x precision).2.val,
               (if scaled then fAis x precision else fAi x precision).2.err)) ∧
      ((if scaled then fAis x precision else fAi x precision).1 ≠ 0 →
        Ai_e fAi fAis x precision scaled =
          .exc (exception_from_result gsl_strerror
            (if scaled then fAis x precision else fAi x precision).1))) ∧
    (((if scaled then fBis x precision else fBi x precision).1 = 0 →
        Bi_e fBi fBis x precision scaled =
          .ok ((if scaled then fBis x precision else fBi x precision).2.val,
               (if scaled then fBis x precision else fBi x precision).2.err)) ∧
      ((if scaled then fBis x precision else fBi x precision).1 ≠ 0 →
        Bi_e fBi fBis x precision scaled =
          .exc (exception_from_result gsl_strerror
            (if scaled then fBis x precision else fBi x precision).1))) := by
  have key : ∀ c : Int × sf_result,
      (c.1 = 0 → Res.bind (sf_error_handler c.1 c.2)
          (fun result => Res.ok (result.val, result.err)) =
          .ok (c.2.val, c.2.err)) ∧
        (c.1 ≠ 0 → Res.bind (sf_error_handler c.1 c.2)
          (fun result => Res.ok (result.val, result.err)) =
          .exc (exception_from_result gsl_strerror c.1)) := by
    intro c
    constructor
    · intro h0
      simp [sf_error_handler, h0]
    · intro hn
      simp [sf_error_handler, hn]
  exact ⟨key (fJ0 x), key (fJ1 x), key (fJn n x),
    key (if scaled then fAis x precision else fAi x precision),
    key (if scaled then fBis x precision else fBi x precision)⟩

/-- C7 witness: a status-zero native evaluator makes `J0_e` return the
unpacked pair, and a non-zero one makes `J1_e` raise the derived
exception; the Airy form unpacks the struct of its scaled evaluator. -/
theorem C7_sf_e_forms_witness :
    J0_e (fun q => (0, ⟨q, 1⟩)) 5 = .ok (5, 1) ∧
      J1_e (fun _ => (1, ⟨0, 0⟩)) 5 =
        .exc (exception_from_result gsl_strerror 1) ∧
      Ai_e (fun _ _ => (0, ⟨2, 3⟩)) (fun _ _ => (0, ⟨4, 5⟩)) 1 0 true =
        .ok (4, 5) := by
  have h := C7_sf_e_forms (fun q => (0, ⟨q, 1⟩)) (fun _ => (1, ⟨0, 0⟩))
    (fun _ _ => (0, ⟨0, 0⟩)) (fun _ _ => (0, ⟨2, 3⟩)) (fun _ _ => (0, ⟨4, 5⟩))
    (fun _ _ => (0, ⟨0, 0⟩)) (fun _ _ => (0, ⟨0, 0⟩)) 5 0 0 true
  refine ⟨h.1.1 rfl, h.2.1.2 (by decide), ?_⟩
  have h2 := C7_sf_e_forms (fun q => (0, ⟨q, 1⟩)) (fun _ => (1, ⟨0, 0⟩))
    (fun _ _ => (0, ⟨0, 0⟩)) (fun _ _ => (0, ⟨2, 3⟩)) (fun _ _ => (0, ⟨4, 5⟩))
    (fun _ _ => (0, ⟨0, 0⟩)) (fun _ _ => (0, ⟨0, 0⟩)) 1 0 0 true
  exact h2.2.2.2.1.1 rfl

/-- C8: the dot product of two equal-length real vectors is symmetric. -/
theorem C8_dot_symmetric (xs ys : List ℚ) (hlen : xs.length = ys.length) :
    Vector.dot true ⟨.real xs⟩ ⟨.real ys⟩ =
      Vector.dot true ⟨.real ys⟩ ⟨.real xs⟩ := by
  have hz : List.zipWith (fun x y => x * y) xs ys =
      List.zipWith (fun x y => x * y) ys xs :=
    List.zipWith_comm_of_comm _ mul_comm xs ys
  simp [Vector.dot, Vector.typecode, native_blas_ddot, hlen, hz]

/-- C8 witness: the dot product of (3, 0, -1) and (-1, 1, 1/2) equals the
dot product taken in the other order (both are -7/2, the example value given in the spec). -/
theorem C8_dot_symmetric_witness :
    Vector.dot true ⟨.real [3, 0, -1]⟩ ⟨.real [-1, 1, 1/2]⟩ =
        Vector.dot true ⟨.real [-1, 1, 1/2]⟩ ⟨.real [3, 0, -1]⟩ ∧
      Vector.dot true ⟨.real [3, 0, -1]⟩ ⟨.real [-1, 1, 1/2]⟩ =
        .ok (.real (-7/2)) :=
  ⟨C8_dot_symmetric [3, 0, -1] [-1, 1, 1/2] rfl, by
    simp [Vector.dot, Vector.typecode, native_blas_ddot]
    norm_num⟩

/-- C9: constructing a Vector with an unknown typecode raises ValueError,
and `__copy__` returns a new vector of the same length and typecode whose
elements equal those of the original. -/
theorem C9_typecode_and_copy :
    (∀ (allocOk : Bool) (arg : InitArg) (tc : String),
        tc ≠ "d" → tc ≠ "C" →
        Vector.init allocOk arg (some tc) =
          .exc ⟨.ValueError, "unknown type code " ++ tc⟩) ∧
      ∀ v : Vector, ∃ w : Vector, Vector.copy true v = .ok w ∧
        w.len = v.len ∧ w.typecode = v.typecode ∧ w.data = v.data := by
  refine ⟨fun allocOk arg tc h1 h2 => by simp [Vector.init, h1, h2],
    fun v => ⟨v, copy_id v, rfl, rfl, rfl⟩⟩

/-- C9 witness: typecode "q" is rejected with ValueError, and copying a
concrete two-element real vector reproduces its length, typecode and
elements. -/
theorem C9_typecode_and_copy_witness :
    Vector.init true (.ofSize 1) (some "q") =
        .exc ⟨.ValueError, "unknown type code q"⟩ ∧
      ∃ w : Vector, Vector.copy true ⟨.real [2, 5]⟩ = .ok w ∧
        w.len = (Vector.mk (.real [2, 5])).len ∧
        w.typecode = (Vector.mk (.real [2, 5])).typecode ∧
        w.data = (Vector.mk (.real [2, 5])).data :=
  ⟨C9_typecode_and_copy.1 true (.ofSize 1) "q" (by decide) (by decide),
    C9_typecode_and_copy.2 ⟨.real [2, 5]⟩⟩

/-- C10: a negative integer index always makes the indexed get raise
IndexError — Python-style negative indexing is not supported. -/
theorem C10_negative_index (v : Vector) (i : Int) (h : i < 0) :
    v.getitem i = .exc ⟨.IndexError, "index out of range"⟩ := by
  rw [Vector.getitem, if_neg]
  intro hc
  exact absurd hc.1 (not_le.mpr h)

/-- C10 witness: `v[-1]` on a one-element vector raises IndexError. -/
theorem C10_negative_index_witness :
    (Vector.mk (.real [5])).getitem (-1) =
      .exc ⟨.IndexError, "index out of range"⟩ :=
  C10_negative_index ⟨.real [5]⟩ (-1) (by decide)

end PyGSL
